import Mathlib

/-!
Verification development for the Project Foundry repository: a shallow
embedding of its defensive theme-resolution and manifest-normalization
layers, with theorems settling the testable claims of the specification.

The embedding models JSON-shaped, possibly-partial input documents as
records of `Option`-typed fields (a `none` field is an absent key), and
translates the JavaScript defaulting idioms faithfully:
  - `a || b` on string values treats the empty string as falsy;
  - `a || b` on numbers treats 0 as falsy;
  - `a || b` on object values is plain `Option` choice (objects, even
    empty ones, are truthy in JavaScript);
  - object spread `... default, ... raw` is a key-wise merge where each
    key present in `raw` overrides the default.
-/

namespace StylePropre

/-- JavaScript `a || b` where `a` is a possibly-absent string and `b` a
string literal: returns `b` when `a` is absent or the empty string. -/
def jsStr (a : Option String) (b : String) : String :=
  match a with
  | some s => if s = "" then b else s
  | none => b

/-- JavaScript `a || b` on possibly-absent string values, with a
possibly-absent right operand (used for chains that can end undefined). -/
def jsOr (a b : Option String) : Option String :=
  match a with
  | some s => if s = "" then b else some s
  | none => b

/-- JavaScript `a || b` where `a` is a possibly-absent number: returns
`b` when `a` is absent or zero (both are falsy). -/
def jsNum (a : Option Int) (b : Int) : Int :=
  match a with
  | some n => if n = 0 then b else n
  | none => b

/-- JavaScript template-literal interpolation of a possibly-absent
string: an absent value renders as the text `undefined`. -/
def jsShow (a : Option String) : String :=
  match a with
  | some s => s
  | none => "undefined"

/-- The 13 named color tokens of the palette of one mode (`ColorScheme` in
`types.ts`); raw documents may omit any subset, so every token is
optional. -/
structure ColorScheme where
  primary : Option String
  primaryHover : Option String
  secondary : Option String
  surface : Option String
  surfaceHighlight : Option String
  background : Option String
  text : Option String
  textSecondary : Option String
  border : Option String
  success : Option String
  warning : Option String
  error : Option String
  info : Option String
deriving Repr, DecidableEq

/-- A color scheme with every token absent. -/
def emptyColorScheme : ColorScheme :=
  ⟨none, none, none, none, none, none, none, none, none, none, none, none, none⟩

/-- The two-mode colors object; either palette may be absent. -/
structure ColorsObj where
  light : Option ColorScheme
  dark : Option ColorScheme
deriving Repr, DecidableEq

/-- The UI mode held by the `mode` state of `StyleguideDisplay`. -/
inductive Mode where
  | light
  | dark
deriving Repr, DecidableEq

/-- Raw (possibly-partial) typography scale. -/
structure RawTypographyScale where
  h1 : Option String
  h2 : Option String
  h3 : Option String
  body : Option String
  caption : Option String
deriving Repr, DecidableEq

/-- Fully-resolved typography scale. -/
structure TypographyScale where
  h1 : String
  h2 : String
  h3 : String
  body : String
  caption : String
deriving Repr, DecidableEq

/-- Raw typography group. -/
structure RawTypography where
  fontFamily : Option String
  scale : Option RawTypographyScale
deriving Repr, DecidableEq

/-- Resolved typography group. -/
structure Typography where
  fontFamily : String
  scale : TypographyScale
deriving Repr, DecidableEq

/-- Raw (possibly-partial) spacing scale. -/
structure RawSpacingScale where
  xs : Option String
  sm : Option String
  md : Option String
  lg : Option String
  xl : Option String
  xxl : Option String
deriving Repr, DecidableEq

/-- Fully-resolved spacing scale. -/
structure SpacingScale where
  xs : String
  sm : String
  md : String
  lg : String
  xl : String
  xxl : String
deriving Repr, DecidableEq

/-- Raw spacing group. -/
structure RawSpacing where
  base : Option Int
  scale : Option RawSpacingScale
deriving Repr, DecidableEq

/-- Resolved spacing group. -/
structure Spacing where
  base : Int
  scale : SpacingScale
deriving Repr, DecidableEq

/-- Raw (possibly-partial) animation durations. -/
structure RawAnimationDuration where
  fast : Option String
  normal : Option String
  slow : Option String
deriving Repr, DecidableEq

/-- Fully-resolved animation durations. -/
structure AnimationDuration where
  fast : String
  normal : String
  slow : String
deriving Repr, DecidableEq

/-- Raw animation group. -/
structure RawAnimation where
  easing : Option String
  duration : Option RawAnimationDuration
deriving Repr, DecidableEq

/-- Resolved animation group. -/
structure Animation where
  easing : String
  duration : AnimationDuration
deriving Repr, DecidableEq

/-- Border radii object: resolved by whole-object substitution, so the
resolved value may itself be partial when the raw document supplied a
partial object. -/
structure BorderRadiusObj where
  small : Option String
  medium : Option String
  large : Option String
  full : Option String
deriving Repr, DecidableEq

/-- Shadows object, whole-object substituted like `BorderRadiusObj`. -/
structure ShadowsObj where
  sm : Option String
  md : Option String
  lg : Option String
deriving Repr, DecidableEq

/-- Gradients object (passed through, defaulted at use sites). -/
structure GradientsObj where
  primary : Option String
  secondary : Option String
deriving Repr, DecidableEq

/-- One badge style spec (background and text color). -/
structure BadgeSpec where
  background : Option String
  text : Option String
deriving Repr, DecidableEq

/-- Raw per-kind badge overrides. -/
structure RawBadges where
  success : Option BadgeSpec
  error : Option BadgeSpec
  warning : Option BadgeSpec
  info : Option BadgeSpec
deriving Repr, DecidableEq

/-- Resolved badge styles, one spec per semantic kind. -/
structure BadgesResolved where
  success : BadgeSpec
  error : BadgeSpec
  warning : BadgeSpec
  info : BadgeSpec
deriving Repr, DecidableEq

/-- Primary-button style spec. -/
structure BtnPrimarySpec where
  background : Option String
  text : Option String
  hover : Option String
  radius : Option String
deriving Repr, DecidableEq

/-- Secondary-button style spec. -/
structure BtnSecondarySpec where
  border : Option String
  text : Option String
  hoverBackground : Option String
  radius : Option String
deriving Repr, DecidableEq

/-- Raw button overrides. -/
structure RawButtons where
  primary : Option BtnPrimarySpec
  secondary : Option BtnSecondarySpec
deriving Repr, DecidableEq

/-- Card style spec; both the raw override and the derived style share
this shape (derived fields can still be absent because two fallback
chains end in a possibly-absent shadow token). -/
structure CardSpec where
  background : Option String
  radius : Option String
  shadow : Option String
  hoverShadow : Option String
deriving Repr, DecidableEq

/-- Input style spec, raw and derived. -/
structure InputSpec where
  background : Option String
  border : Option String
  focusBorder : Option String
  radius : Option String
deriving Repr, DecidableEq

/-- The `components` object of a raw design system. -/
structure ComponentsObj where
  buttons : Option RawButtons
  cards : Option CardSpec
  inputs : Option InputSpec
  badges : Option RawBadges
deriving Repr, DecidableEq

/-- A components object with every element override absent (the `{}`
fallback of `comps = safeDs.components || {}`). -/
def emptyComponents : ComponentsObj :=
  ⟨none, none, none, none⟩

/-- The raw, possibly-partial design-system document handed to
`StyleguideDisplay` (every field may be missing). -/
structure RawDesignSystem where
  theme : Option String
  projectName : Option String
  description : Option String
  uiImage : Option String
  iconStyle : Option String
  colors : Option ColorsObj
  gradients : Option GradientsObj
  typography : Option RawTypography
  spacing : Option RawSpacing
  animation : Option RawAnimation
  components : Option ComponentsObj
  borderRadius : Option BorderRadiusObj
  shadows : Option ShadowsObj
deriving Repr, DecidableEq

/-- A raw design system with every field absent. -/
def emptyRawDS : RawDesignSystem :=
  ⟨none, none, none, none, none, none, none, none, none, none, none, none, none⟩

/-- The `safeDs` object built by `StyleguideDisplay`: every theme group
resolved, remaining raw fields spread through unchanged. -/
structure SafeDesignSystem where
  theme : Option String
  projectName : Option String
  description : Option String
  uiImage : Option String
  iconStyle : Option String
  gradients : Option GradientsObj
  components : Option ComponentsObj
  borderRadius : BorderRadiusObj
  shadows : ShadowsObj
  animation : Animation
  spacing : Spacing
  typography : Typography
  colors : ColorsObj
deriving Repr, DecidableEq

/-- `defaultTypographyScale` constant of `StyleguideDisplay`. -/
def defaultTypographyScale : TypographyScale :=
  ⟨"2.5rem", "2rem", "1.75rem", "1rem", "0.875rem"⟩

/-- `defaultSpacingScale` constant of `StyleguideDisplay`. -/
def defaultSpacingScale : SpacingScale :=
  ⟨"4px", "8px", "16px", "24px", "32px", "48px"⟩

/-- `defaultAnimationDuration` constant of `StyleguideDisplay`. -/
def defaultAnimationDuration : AnimationDuration :=
  ⟨"150ms", "300ms", "500ms"⟩

/-- The border-radius default object used when the raw field is absent. -/
def defaultBorderRadius : BorderRadiusObj :=
  ⟨some "4px", some "8px", some "12px", some "9999px"⟩

/-- The shadows default object used when the raw field is absent. -/
def defaultShadows : ShadowsObj :=
  ⟨some "0 1px 2px rgba(0,0,0,0.1)", some "0 4px 6px rgba(0,0,0,0.1)",
   some "0 10px 15px rgba(0,0,0,0.1)"⟩

/-- The colors default object used when the raw field is absent: both
palettes carry only primary, text and background. -/
def defaultColors : ColorsObj :=
  ⟨some { emptyColorScheme with primary := some "#000", text := some "#000", background := some "#fff" },
   some { emptyColorScheme with primary := some "#fff", text := some "#fff", background := some "#000" }⟩

/-- Key-wise merge of the typography scale: spread of the raw group over
the hardcoded default mapping. -/
def mergeTypographyScale (raw : Option RawTypographyScale) : TypographyScale :=
  match raw with
  | none => defaultTypographyScale
  | some r =>
    ⟨r.h1.getD defaultTypographyScale.h1,
     r.h2.getD defaultTypographyScale.h2,
     r.h3.getD defaultTypographyScale.h3,
     r.body.getD defaultTypographyScale.body,
     r.caption.getD defaultTypographyScale.caption⟩

/-- Key-wise merge of the spacing scale. -/
def mergeSpacingScale (raw : Option RawSpacingScale) : SpacingScale :=
  match raw with
  | none => defaultSpacingScale
  | some r =>
    ⟨r.xs.getD defaultSpacingScale.xs,
     r.sm.getD defaultSpacingScale.sm,
     r.md.getD defaultSpacingScale.md,
     r.lg.getD defaultSpacingScale.lg,
     r.xl.getD defaultSpacingScale.xl,
     r.xxl.getD defaultSpacingScale.xxl⟩

/-- Key-wise merge of the animation durations. -/
def mergeAnimationDuration (raw : Option RawAnimationDuration) : AnimationDuration :=
  match raw with
  | none => defaultAnimationDuration
  | some r =>
    ⟨r.fast.getD defaultAnimationDuration.fast,
     r.normal.getD defaultAnimationDuration.normal,
     r.slow.getD defaultAnimationDuration.slow⟩

/-- The theme resolution performed at the top of `StyleguideDisplay`
(the `safeDs` construction): total over any partial input, including an
absent document. -/
def resolve (ds : Option RawDesignSystem) : SafeDesignSystem :=
  { theme := ds.bind (·.theme)
    projectName := ds.bind (·.projectName)
    description := ds.bind (·.description)
    uiImage := ds.bind (·.uiImage)
    iconStyle := ds.bind (·.iconStyle)
    gradients := ds.bind (·.gradients)
    components := ds.bind (·.components)
    borderRadius := (ds.bind (·.borderRadius)).getD defaultBorderRadius
    shadows := (ds.bind (·.shadows)).getD defaultShadows
    animation :=
      { easing := jsStr ((ds.bind (·.animation)).bind (·.easing)) "ease"
        duration := mergeAnimationDuration ((ds.bind (·.animation)).bind (·.duration)) }
    spacing :=
      { base := jsNum ((ds.bind (·.spacing)).bind (·.base)) 4
        scale := mergeSpacingScale ((ds.bind (·.spacing)).bind (·.scale)) }
    typography :=
      { fontFamily := jsStr ((ds.bind (·.typography)).bind (·.fontFamily)) "sans-serif"
        scale := mergeTypographyScale ((ds.bind (·.typography)).bind (·.scale)) }
    colors := (ds.bind (·.colors)).getD defaultColors }

/-- The palette stored for a given mode in the colors object. -/
def paletteSlot (c : ColorsObj) (m : Mode) : Option ColorScheme :=
  match m with
  | .light => c.light
  | .dark => c.dark

/-- The minimal emergency palette of the mode-selection fallback chain. -/
def emergencyPalette : ColorScheme :=
  { emptyColorScheme with background := some "#fff", text := some "#000" }

/-- Mode selection over a colors object:
`colors[mode] || colors.light || emergency` (objects are truthy). -/
def paletteOf (c : ColorsObj) (m : Mode) : ColorScheme :=
  match paletteSlot c m with
  | some p => p
  | none =>
    match c.light with
    | some p => p
    | none => emergencyPalette

/-- The `colors` local of `StyleguideDisplay`: active palette for the
current mode. -/
def activeColors (safe : SafeDesignSystem) (m : Mode) : ColorScheme :=
  paletteOf safe.colors m

/-- The `comps` local: `safeDs.components || emptyComponents`. -/
def compsOf (safe : SafeDesignSystem) : ComponentsObj :=
  safe.components.getD emptyComponents

/-- The `defaultBadges` helper: the background of each kind is the color
token (or its fixed brand fallback) with the `33` alpha suffix, and the
text is the token itself. -/
def defaultBadgesOf (colors : ColorScheme) : BadgesResolved :=
  { success := ⟨some (jsStr colors.success "#10B981" ++ "33"), some (jsStr colors.success "#10B981")⟩
    error := ⟨some (jsStr colors.error "#EF4444" ++ "33"), some (jsStr colors.error "#EF4444")⟩
    warning := ⟨some (jsStr colors.warning "#F59E0B" ++ "33"), some (jsStr colors.warning "#F59E0B")⟩
    info := ⟨some (jsStr colors.info "#3B82F6" ++ "33"), some (jsStr colors.info "#3B82F6")⟩ }

/-- The `badges` local: per-kind whole-object choice between an explicit
raw badge spec and the derived default. -/
def badgesOf (comps : ComponentsObj) (colors : ColorScheme) : BadgesResolved :=
  { success := ((comps.badges).bind (·.success)).getD (defaultBadgesOf colors).success
    error := ((comps.badges).bind (·.error)).getD (defaultBadgesOf colors).error
    warning := ((comps.badges).bind (·.warning)).getD (defaultBadgesOf colors).warning
    info := ((comps.badges).bind (·.info)).getD (defaultBadgesOf colors).info }

/-- The `btnPrimary` local: explicit raw spec verbatim, else a spec
synthesized from the palette and border radii. -/
def btnPrimaryOf (comps : ComponentsObj) (colors : ColorScheme)
    (borderRadius : BorderRadiusObj) : BtnPrimarySpec :=
  ((comps.buttons).bind (·.primary)).getD
    { background := some (jsStr colors.primary "#000000")
      text := some "#FFFFFF"
      hover := some (jsStr colors.primaryHover (jsStr colors.primary "#333333"))
      radius := borderRadius.medium }

/-- The `btnSecondary` local: explicit raw spec verbatim, else
synthesized. -/
def btnSecondaryOf (comps : ComponentsObj) (colors : ColorScheme)
    (borderRadius : BorderRadiusObj) : BtnSecondarySpec :=
  ((comps.buttons).bind (·.secondary)).getD
    { border := some (jsStr colors.border "#E5E5E5")
      text := some (jsStr colors.text "#000000")
      hoverBackground := some (jsStr colors.surfaceHighlight "#F5F5F5")
      radius := borderRadius.medium }

/-- The `cardStyle` local: resolved field by field, each field falling
back from the raw override to a theme token (and, for background, to a
literal). -/
def cardStyleOf (comps : ComponentsObj) (colors : ColorScheme)
    (borderRadius : BorderRadiusObj) (shadows : ShadowsObj) : CardSpec :=
  { background := jsOr ((comps.cards).bind (·.background)) (jsOr colors.surface (some "#FFFFFF"))
    radius := jsOr ((comps.cards).bind (·.radius)) borderRadius.large
    shadow := jsOr ((comps.cards).bind (·.shadow)) shadows.md
    hoverShadow := jsOr ((comps.cards).bind (·.hoverShadow)) shadows.lg }

/-- The `inputStyle` local: resolved field by field like `cardStyleOf`. -/
def inputStyleOf (comps : ComponentsObj) (colors : ColorScheme)
    (borderRadius : BorderRadiusObj) : InputSpec :=
  { background := jsOr ((comps.inputs).bind (·.background)) (jsOr colors.surfaceHighlight (some "#F5F5F5"))
    border := jsOr ((comps.inputs).bind (·.border)) (jsOr colors.border (some "#E5E5E5"))
    focusBorder := jsOr ((comps.inputs).bind (·.focusBorder)) (jsOr colors.primary (some "#000000"))
    radius := jsOr ((comps.inputs).bind (·.radius)) borderRadius.medium }

/-- The `gradients` use-site default. -/
def gradientsOf (safe : SafeDesignSystem) : GradientsObj :=
  safe.gradients.getD ⟨some "none", some "none"⟩

/-- The developer-export block: the ordered list of CSS custom
properties emitted by the export section, each name paired with the
rendered text of its currently resolved value. -/
def cssVars (safe : SafeDesignSystem) (m : Mode) : List (String × String) :=
  let colors := activeColors safe m
  let comps := compsOf safe
  let bp := btnPrimaryOf comps colors safe.borderRadius
  let cs := cardStyleOf comps colors safe.borderRadius safe.shadows
  let inp := inputStyleOf comps colors safe.borderRadius
  [("--primary", jsShow colors.primary),
   ("--primary-hover", jsShow colors.primaryHover),
   ("--secondary", jsShow colors.secondary),
   ("--success", jsShow colors.success),
   ("--error", jsShow colors.error),
   ("--warning", jsShow colors.warning),
   ("--info", jsShow colors.info),
   ("--background", jsShow colors.background),
   ("--text", jsShow colors.text),
   ("--btn-radius", jsShow bp.radius),
   ("--card-radius", jsShow cs.radius),
   ("--card-shadow", jsShow cs.shadow),
   ("--input-radius", jsShow inp.radius),
   ("--ease-default", safe.animation.easing),
   ("--duration-normal", safe.animation.duration.normal)]

/-- Project info section of a manifest (`ProjectInfo` in `types.ts`). -/
structure ProjectInfo where
  id : Option String
  name : Option String
  tagline : Option String
  description : Option String
  version : Option String
  domain : Option String
  locale : Option String
deriving Repr, DecidableEq

/-- Landing-page section: ordered structure ids plus a string-keyed
sections map (modelled as an association list of rendered headline
text). -/
structure LandingPage where
  «structure» : Option (List String)
  sections : Option (List (String × String))
deriving Repr, DecidableEq

/-- One dashboard module entry. -/
structure ModuleSpec where
  id : Option String
  label : Option String
  icon : Option String
  «type» : Option String
deriving Repr, DecidableEq

/-- Dashboard object of the app section. -/
structure DashboardObj where
  name : Option String
  modules : Option (List ModuleSpec)
deriving Repr, DecidableEq

/-- App-structure section. -/
structure AppStructure where
  layout : Option String
  dashboard : Option DashboardObj
deriving Repr, DecidableEq

/-- Viral-loop object of the growth section. -/
structure ViralLoop where
  mechanism : Option String
  reward : Option String
deriving Repr, DecidableEq

/-- One onboarding step. -/
structure OnboardingStep where
  id : Option String
  label : Option String
  reward : Option String
deriving Repr, DecidableEq

/-- Onboarding object of the growth section. -/
structure OnboardingObj where
  gamified : Option Bool
  steps : Option (List OnboardingStep)
deriving Repr, DecidableEq

/-- Growth-strategy section. -/
structure GrowthStrategy where
  enabled : Option Bool
  viralLoop : Option ViralLoop
  onboarding : Option OnboardingObj
deriving Repr, DecidableEq

/-- Persistence object of the tech section. -/
structure PersistenceObj where
  mode : Option String
deriving Repr, DecidableEq

/-- Quality object of the tech section. -/
structure QualityObj where
  unitTests : Option Bool
  e2eTests : Option Bool
  ci_cd : Option String
deriving Repr, DecidableEq

/-- Tech-stack section. -/
structure TechStack where
  stackPreset : Option String
  persistence : Option PersistenceObj
  quality : Option QualityObj
deriving Repr, DecidableEq

/-- Auth section. -/
structure AuthConfig where
  enabled : Option Bool
  modes : Option (List String)
  providers : Option (List String)
deriving Repr, DecidableEq

/-- Indexing object of the SEO section. -/
structure IndexingObj where
  robotsTxt : Option String
  sitemap : Option Bool
deriving Repr, DecidableEq

/-- Metadata object of the SEO section. -/
structure SeoMetadata where
  «type» : Option String
  title : Option String
deriving Repr, DecidableEq

/-- SEO section. -/
structure SeoConfig where
  enabled : Option Bool
  indexing : Option IndexingObj
  metadata : Option SeoMetadata
deriving Repr, DecidableEq

/-- The raw, possibly-partial project manifest handed to
`ProjectBlueprint`. -/
structure RawManifest where
  specVersion : Option String
  auditStatus : Option String
  branding : Option String
  comment : Option String
  edition : Option String
  project : Option ProjectInfo
  tech : Option TechStack
  seo : Option SeoConfig
  growth : Option GrowthStrategy
  designSystem : Option RawDesignSystem
  landing : Option LandingPage
  auth : Option AuthConfig
  app : Option AppStructure
deriving Repr, DecidableEq

/-- A raw manifest with every section absent (the empty object). -/
def emptyRawManifest : RawManifest :=
  ⟨none, none, none, none, none, none, none, none, none, none, none, none, none⟩

/-- The normalized manifest: every top-level section present. -/
structure NormalizedManifest where
  project : ProjectInfo
  landing : LandingPage
  app : AppStructure
  growth : GrowthStrategy
  tech : TechStack
  auth : AuthConfig
  seo : SeoConfig
  designSystem : RawDesignSystem
deriving Repr, DecidableEq

/-- Default `project` section literal of `ProjectBlueprint`. -/
def defaultProject : ProjectInfo :=
  ⟨none, some "New Project", some "", some "", some "0.1.0", some "example.com", some "en-US"⟩

/-- Default `landing` section literal. -/
def defaultLanding : LandingPage :=
  ⟨some [], some []⟩

/-- Default `app` section literal. -/
def defaultApp : AppStructure :=
  ⟨none, some ⟨none, some []⟩⟩

/-- Default `growth` section literal. -/
def defaultGrowth : GrowthStrategy :=
  ⟨none, some ⟨some "N/A", none⟩, some ⟨some false, none⟩⟩

/-- Default `tech` section literal. -/
def defaultTech : TechStack :=
  ⟨some "N/A", some ⟨some "N/A"⟩, some ⟨some false, some false, none⟩⟩

/-- Default `auth` section literal. -/
def defaultAuth : AuthConfig :=
  ⟨none, none, some []⟩

/-- Default `seo` section literal. -/
def defaultSeo : SeoConfig :=
  ⟨none, some ⟨some "N/A", some false⟩, none⟩

/-- Default `designSystem` section literal of `ProjectBlueprint`: theme
light with a present-but-empty colors object and a present-but-empty
components object; deeper safety is deferred to the theme resolver. -/
def defaultDesignSystemSection : RawDesignSystem :=
  { emptyRawDS with
    theme := some "light"
    colors := some ⟨none, none⟩
    components := some emptyComponents }

/-- The section normalization performed by `ProjectBlueprint`: each
top-level section passes through when present and is replaced by its
literal default when absent. -/
def normalize (m : RawManifest) : NormalizedManifest :=
  { project := m.project.getD defaultProject
    landing := m.landing.getD defaultLanding
    app := m.app.getD defaultApp
    growth := m.growth.getD defaultGrowth
    tech := m.tech.getD defaultTech
    auth := m.auth.getD defaultAuth
    seo := m.seo.getD defaultSeo
    designSystem := m.designSystem.getD defaultDesignSystemSection }

/-- The design-system document that `ProjectBlueprint` passes to
`StyleguideDisplay`: the normalized section with the project name
injected. -/
def dsForStyleguide (m : RawManifest) : RawDesignSystem :=
  { (normalize m).designSystem with projectName := (normalize m).project.name }

/-- The interactive-session state of the `App` component that the
generation flow touches. -/
structure AppState where
  loading : Bool
  error : Option String
  manifest : Option RawManifest
deriving Repr, DecidableEq

/-- The generic user-visible generation-failure message. -/
def genericErrorMsg : String :=
  "Failed to generate project manifest. Please check your API key and try again."

/-- State update at the start of `handleGenerate` (after the empty-input
guard): loading set, error cleared, manifest untouched. -/
def startGenerate (s : AppState) : AppState :=
  { s with loading := true, error := none }

/-- State update when the awaited generation call completes: on success
the manifest is replaced, on any failure the single generic message is
surfaced and the manifest is left as it was; the `finally` block clears
the loading flag in both cases. -/
def finishGenerate (s : AppState) (result : Except String RawManifest) : AppState :=
  match result with
  | .ok m => { s with manifest := some m, loading := false }
  | .error _ => { s with error := some genericErrorMsg, loading := false }

/-- The control flow of `generateProjectManifest` in
`geminiService.ts`, abstracted over the external call and the JSON
parser: a missing credential throws before the call, a failed call
propagates its error, an empty response text throws, and otherwise the
parse result (which itself may fail on malformed JSON) is returned. -/
def generateProjectManifest (apiKey : Option String)
    (callResult : Except String (Option String))
    (parse : String → Except String RawManifest) : Except String RawManifest :=
  match apiKey with
  | none => .error "API Key is missing"
  | some _ =>
    match callResult with
    | .error e => .error e
    | .ok none => .error "No response from AI"
    | .ok (some txt) => parse txt

/-- The primary-button spec derived along the render path for a raw
document and mode. -/
def derivedBtnPrimary (ds : Option RawDesignSystem) (m : Mode) : BtnPrimarySpec :=
  btnPrimaryOf (compsOf (resolve ds)) (activeColors (resolve ds) m) (resolve ds).borderRadius

/-- The secondary-button spec derived along the render path. -/
def derivedBtnSecondary (ds : Option RawDesignSystem) (m : Mode) : BtnSecondarySpec :=
  btnSecondaryOf (compsOf (resolve ds)) (activeColors (resolve ds) m) (resolve ds).borderRadius

/-- The badge specs derived along the render path. -/
def derivedBadges (ds : Option RawDesignSystem) (m : Mode) : BadgesResolved :=
  badgesOf (compsOf (resolve ds)) (activeColors (resolve ds) m)

/-- The card spec derived along the render path. -/
def derivedCard (ds : Option RawDesignSystem) (m : Mode) : CardSpec :=
  cardStyleOf (compsOf (resolve ds)) (activeColors (resolve ds) m)
    (resolve ds).borderRadius (resolve ds).shadows

/-- The input spec derived along the render path. -/
def derivedInput (ds : Option RawDesignSystem) (m : Mode) : InputSpec :=
  inputStyleOf (compsOf (resolve ds)) (activeColors (resolve ds) m) (resolve ds).borderRadius

/-- `jsStr` never returns the empty string when its fallback is
nonempty. -/
theorem jsStr_ne_empty (a : Option String) (b : String) (hb : b ≠ "") :
    jsStr a b ≠ "" := by
  cases a with
  | none => exact hb
  | some s =>
    by_cases h : s = ""
    · simp only [jsStr, h, ite_true]
      exact hb
    · simp [jsStr, h]

/-- `jsNum` never returns zero when its fallback is nonzero. -/
theorem jsNum_ne_zero (a : Option Int) (b : Int) (hb : b ≠ 0) :
    jsNum a b ≠ 0 := by
  cases a with
  | none => exact hb
  | some n =>
    by_cases h : n = 0
    · simp only [jsNum, h, ite_true]
      exact hb
    · simp [jsNum, h]

/-- C1: for every partial design-system input, including an absent one,
the theme resolution of `StyleguideDisplay` returns a fully-populated
theme object: `resolve` is a total function into a record whose
border-radius, shadow, animation, spacing, typography and colors groups
are always present (so it can never raise), its `||`-guarded scalar
leaves never resolve to a JavaScript-falsy value, and the fully absent
input resolves to exactly the documented default theme. -/
theorem resolve_totality (ds : Option RawDesignSystem) :
    (resolve ds).animation.easing ≠ ""
    ∧ (resolve ds).typography.fontFamily ≠ ""
    ∧ (resolve ds).spacing.base ≠ 0
    ∧ resolve none =
      { theme := none, projectName := none, description := none, uiImage := none,
        iconStyle := none, gradients := none, components := none,
        borderRadius := defaultBorderRadius, shadows := defaultShadows,
        animation := ⟨"ease", defaultAnimationDuration⟩,
        spacing := ⟨4, defaultSpacingScale⟩,
        typography := ⟨"sans-serif", defaultTypographyScale⟩,
        colors := defaultColors } := by
  refine ⟨?_, ?_, ?_, rfl⟩
  · exact jsStr_ne_empty _ _ (by decide)
  · exact jsStr_ne_empty _ _ (by decide)
  · exact jsNum_ne_zero _ _ (by decide)

/-- C2: the structured groups typography.scale, spacing.scale and
animation.duration are resolved key-wise over the hardcoded defaults:
each key takes the raw value when present and its default otherwise; in
particular a raw typography scale supplying only h1 as 3rem resolves to
h1 3rem with h2, h3, body and caption at their documented defaults. -/
theorem structured_groups_keywise_merge (ds : RawDesignSystem) :
    ((resolve (some ds)).typography.scale.h1
        = ((ds.typography.bind RawTypography.scale).bind RawTypographyScale.h1).getD "2.5rem"
      ∧ (resolve (some ds)).typography.scale.h2
        = ((ds.typography.bind RawTypography.scale).bind RawTypographyScale.h2).getD "2rem"
      ∧ (resolve (some ds)).typography.scale.h3
        = ((ds.typography.bind RawTypography.scale).bind RawTypographyScale.h3).getD "1.75rem"
      ∧ (resolve (some ds)).typography.scale.body
        = ((ds.typography.bind RawTypography.scale).bind RawTypographyScale.body).getD "1rem"
      ∧ (resolve (some ds)).typography.scale.caption
        = ((ds.typography.bind RawTypography.scale).bind RawTypographyScale.caption).getD "0.875rem")
    ∧ ((resolve (some ds)).spacing.scale.xs
        = ((ds.spacing.bind RawSpacing.scale).bind RawSpacingScale.xs).getD "4px"
      ∧ (resolve (some ds)).spacing.scale.sm
        = ((ds.spacing.bind RawSpacing.scale).bind RawSpacingScale.sm).getD "8px"
      ∧ (resolve (some ds)).spacing.scale.md
        = ((ds.spacing.bind RawSpacing.scale).bind RawSpacingScale.md).getD "16px"
      ∧ (resolve (some ds)).spacing.scale.lg
        = ((ds.spacing.bind RawSpacing.scale).bind RawSpacingScale.lg).getD "24px"
      ∧ (resolve (some ds)).spacing.scale.xl
        = ((ds.spacing.bind RawSpacing.scale).bind RawSpacingScale.xl).getD "32px"
      ∧ (resolve (some ds)).spacing.scale.xxl
        = ((ds.spacing.bind RawSpacing.scale).bind RawSpacingScale.xxl).getD "48px")
    ∧ ((resolve (some ds)).animation.duration.fast
        = ((ds.animation.bind RawAnimation.duration).bind RawAnimationDuration.fast).getD "150ms"
      ∧ (resolve (some ds)).animation.duration.normal
        = ((ds.animation.bind RawAnimation.duration).bind RawAnimationDuration.normal).getD "300ms"
      ∧ (resolve (some ds)).animation.duration.slow
        = ((ds.animation.bind RawAnimation.duration).bind RawAnimationDuration.slow).getD "500ms")
    ∧ (resolve (some { emptyRawDS with
          typography := some ⟨none, some ⟨some "3rem", none, none, none, none⟩⟩ })).typography.scale
        = ⟨"3rem", "2rem", "1.75rem", "1rem", "0.875rem"⟩ := by
  refine ⟨?_, ?_, ?_, rfl⟩
  · cases hty : ds.typography with
    | none =>
      refine ⟨?_, ?_, ?_, ?_, ?_⟩ <;>
        simp [resolve, hty, mergeTypographyScale, defaultTypographyScale]
    | some ty' =>
      cases hsc : ty'.scale <;>
        (refine ⟨?_, ?_, ?_, ?_, ?_⟩ <;>
          simp [resolve, hty, hsc, mergeTypographyScale, defaultTypographyScale])
  · cases hsp : ds.spacing with
    | none =>
      refine ⟨?_, ?_, ?_, ?_, ?_, ?_⟩ <;>
        simp [resolve, hsp, mergeSpacingScale, defaultSpacingScale]
    | some sp' =>
      cases hsc : sp'.scale <;>
        (refine ⟨?_, ?_, ?_, ?_, ?_, ?_⟩ <;>
          simp [resolve, hsp, hsc, mergeSpacingScale, defaultSpacingScale])
  · cases han : ds.animation with
    | none =>
      refine ⟨?_, ?_, ?_⟩ <;>
        simp [resolve, han, mergeAnimationDuration, defaultAnimationDuration]
    | some an' =>
      cases hdu : an'.duration <;>
        (refine ⟨?_, ?_, ?_⟩ <;>
          simp [resolve, han, hdu, mergeAnimationDuration, defaultAnimationDuration])

/-- C3: borderRadius, shadows and colors are resolved by whole-object
substitution — a raw-supplied object is used entirely as given and an
absent one is replaced by the full default object; in particular a raw
border radius supplying only small as 1px resolves to exactly that
object, with medium, large and full left absent. -/
theorem whole_object_substitution (ds : RawDesignSystem) :
    (resolve (some ds)).borderRadius = ds.borderRadius.getD defaultBorderRadius
    ∧ (resolve (some ds)).shadows = ds.shadows.getD defaultShadows
    ∧ (resolve (some ds)).colors = ds.colors.getD defaultColors
    ∧ (resolve (some { emptyRawDS with
          borderRadius := some ⟨some "1px", none, none, none⟩ })).borderRadius
        = ⟨some "1px", none, none, none⟩ :=
  ⟨rfl, rfl, rfl, rfl⟩

/-- C4: the active palette is the entry of the current mode of the resolved colors
object, falling back first to the light palette and then to the minimal
emergency palette whose only tokens are a white background and black
text. -/
theorem mode_fallback_chain (safe : SafeDesignSystem) (m : Mode) :
    activeColors safe m = paletteOf safe.colors m
    ∧ (∀ (l : Option ColorScheme) (p : ColorScheme), paletteOf ⟨l, some p⟩ Mode.dark = p)
    ∧ (∀ p : ColorScheme, paletteOf ⟨some p, none⟩ Mode.dark = p)
    ∧ paletteOf ⟨none, none⟩ Mode.dark = emergencyPalette
    ∧ (∀ (d : Option ColorScheme) (p : ColorScheme), paletteOf ⟨some p, d⟩ Mode.light = p)
    ∧ (∀ d : Option ColorScheme, paletteOf ⟨none, d⟩ Mode.light = emergencyPalette)
    ∧ emergencyPalette.background = some "#fff"
    ∧ emergencyPalette.text = some "#000" :=
  ⟨rfl, fun _ _ => rfl, fun _ => rfl, rfl, fun _ _ => rfl, fun _ => rfl, rfl, rfl⟩

/-- C6: each of the eight top-level manifest sections is resolved by
whole-object substitution — present sections pass through unchanged,
absent ones are replaced by their literal defaults (project defaulting
to name New Project, version 0.1.0) — so every section of the
normalized manifest is present. -/
theorem manifest_normalization (m : RawManifest) :
    (normalize m).project = m.project.getD defaultProject
    ∧ (normalize m).landing = m.landing.getD defaultLanding
    ∧ (normalize m).app = m.app.getD defaultApp
    ∧ (normalize m).growth = m.growth.getD defaultGrowth
    ∧ (normalize m).tech = m.tech.getD defaultTech
    ∧ (normalize m).auth = m.auth.getD defaultAuth
    ∧ (normalize m).seo = m.seo.getD defaultSeo
    ∧ (normalize m).designSystem = m.designSystem.getD defaultDesignSystemSection
    ∧ normalize emptyRawManifest =
        ⟨defaultProject, defaultLanding, defaultApp, defaultGrowth,
         defaultTech, defaultAuth, defaultSeo, defaultDesignSystemSection⟩
    ∧ defaultProject.name = some "New Project"
    ∧ defaultProject.version = some "0.1.0" :=
  ⟨rfl, rfl, rfl, rfl, rfl, rfl, rfl, rfl, rfl, rfl, rfl⟩

/-- A raw document whose only override is an explicit, partial card
spec (background only). -/
def dsCardA : RawDesignSystem :=
  { emptyRawDS with
    components := some { emptyComponents with cards := some ⟨some "red", none, none, none⟩ } }

/-- Same explicit card spec as `dsCardA`, but with a different raw
border-radius object. -/
def dsCardB : RawDesignSystem :=
  { dsCardA with borderRadius := some ⟨none, none, some "7px", none⟩ }

/-- C5 counterexample: an explicit raw card spec is not used verbatim —
two documents with the identical explicit card override but different
theme radii derive different card styles, and the derived radius is a
synthesized theme token the raw spec never supplied. -/
theorem component_spec_not_verbatim :
    dsCardA.components = dsCardB.components
    ∧ (dsCardA.components.getD emptyComponents).cards.bind CardSpec.radius = none
    ∧ (derivedCard (some dsCardA) Mode.light).radius = some "12px"
    ∧ derivedCard (some dsCardA) Mode.light ≠ derivedCard (some dsCardB) Mode.light := by
  have hA : derivedCard (some dsCardA) Mode.light
      = ⟨some "red", some "12px", some "0 4px 6px rgba(0,0,0,0.1)",
         some "0 10px 15px rgba(0,0,0,0.1)"⟩ := by
    rfl
  have hB : derivedCard (some dsCardB) Mode.light
      = ⟨some "red", some "7px", some "0 4px 6px rgba(0,0,0,0.1)",
         some "0 10px 15px rgba(0,0,0,0.1)"⟩ := by
    rfl
  refine ⟨rfl, by rfl, by rw [hA], ?_⟩
  rw [hA, hB]
  intro hcontra
  have h2 := congrArg CardSpec.radius hcontra
  exact absurd h2 (by decide)

/-- C5 (amended): primary and secondary buttons and each badge kind use
an explicit raw spec verbatim and otherwise a spec synthesized from
theme tokens with hardcoded literal fallbacks; cards and inputs are
instead resolved field by field, each field falling back from the raw
field to a theme token and then to a literal. -/
theorem component_spec_resolution (ds : Option RawDesignSystem) (m : Mode) :
    (∀ b, (compsOf (resolve ds)).buttons.bind RawButtons.primary = some b →
        derivedBtnPrimary ds m = b)
    ∧ ((compsOf (resolve ds)).buttons.bind RawButtons.primary = none →
        derivedBtnPrimary ds m =
          ⟨some (jsStr (activeColors (resolve ds) m).primary "#000000"),
           some "#FFFFFF",
           some (jsStr (activeColors (resolve ds) m).primaryHover
             (jsStr (activeColors (resolve ds) m).primary "#333333")),
           (resolve ds).borderRadius.medium⟩)
    ∧ (∀ b, (compsOf (resolve ds)).buttons.bind RawButtons.secondary = some b →
        derivedBtnSecondary ds m = b)
    ∧ (∀ b, (compsOf (resolve ds)).badges.bind RawBadges.success = some b →
        (derivedBadges ds m).success = b)
    ∧ (∀ b, (compsOf (resolve ds)).badges.bind RawBadges.error = some b →
        (derivedBadges ds m).error = b)
    ∧ (∀ b, (compsOf (resolve ds)).badges.bind RawBadges.warning = some b →
        (derivedBadges ds m).warning = b)
    ∧ (∀ b, (compsOf (resolve ds)).badges.bind RawBadges.info = some b →
        (derivedBadges ds m).info = b)
    ∧ ((compsOf (resolve ds)).badges.bind RawBadges.success = none →
        (derivedBadges ds m).success =
          ⟨some (jsStr (activeColors (resolve ds) m).success "#10B981" ++ "33"),
           some (jsStr (activeColors (resolve ds) m).success "#10B981")⟩)
    ∧ derivedCard ds m =
        ⟨jsOr ((compsOf (resolve ds)).cards.bind CardSpec.background)
            (jsOr (activeColors (resolve ds) m).surface (some "#FFFFFF")),
         jsOr ((compsOf (resolve ds)).cards.bind CardSpec.radius)
            (resolve ds).borderRadius.large,
         jsOr ((compsOf (resolve ds)).cards.bind CardSpec.shadow)
            (resolve ds).shadows.md,
         jsOr ((compsOf (resolve ds)).cards.bind CardSpec.hoverShadow)
            (resolve ds).shadows.lg⟩
    ∧ derivedInput ds m =
        ⟨jsOr ((compsOf (resolve ds)).inputs.bind InputSpec.background)
            (jsOr (activeColors (resolve ds) m).surfaceHighlight (some "#F5F5F5")),
         jsOr ((compsOf (resolve ds)).inputs.bind InputSpec.border)
            (jsOr (activeColors (resolve ds) m).border (some "#E5E5E5")),
         jsOr ((compsOf (resolve ds)).inputs.bind InputSpec.focusBorder)
            (jsOr (activeColors (resolve ds) m).primary (some "#000000")),
         jsOr ((compsOf (resolve ds)).inputs.bind InputSpec.radius)
            (resolve ds).borderRadius.medium⟩ := by
  refine ⟨?_, ?_, ?_, ?_, ?_, ?_, ?_, ?_, rfl, rfl⟩
  · intro b h
    simp only [derivedBtnPrimary, btnPrimaryOf]
    rw [h]
    rfl
  · intro h
    simp only [derivedBtnPrimary, btnPrimaryOf]
    rw [h]
    rfl
  · intro b h
    simp only [derivedBtnSecondary, btnSecondaryOf]
    rw [h]
    rfl
  · intro b h
    simp only [derivedBadges, badgesOf]
    rw [h]
    rfl
  · intro b h
    simp only [derivedBadges, badgesOf]
    rw [h]
    rfl
  · intro b h
    simp only [derivedBadges, badgesOf]
    rw [h]
    rfl
  · intro b h
    simp only [derivedBadges, badgesOf]
    rw [h]
    rfl
  · intro h
    simp only [derivedBadges, badgesOf, defaultBadgesOf]
    rw [h]
    rfl

/-- A raw document with explicit button and badge overrides. -/
def dsOverride : RawDesignSystem :=
  { emptyRawDS with
    components := some
      { emptyComponents with
        buttons := some
          ⟨some ⟨some "#111", some "#222", some "#333", some "2px"⟩,
           some ⟨some "#444", some "#555", some "#666", some "3px"⟩⟩
        badges := some
          ⟨some ⟨some "#777", some "#888"⟩, some ⟨some "#999", some "#aaa"⟩,
           some ⟨some "#bbb", some "#ccc"⟩, some ⟨some "#ddd", some "#eee"⟩⟩ } }

/-- C5 witness: the amended resolution rules evaluated at concrete
documents with and without explicit overrides. -/
theorem component_spec_resolution_witness :
    derivedBtnPrimary (some dsOverride) Mode.light
        = ⟨some "#111", some "#222", some "#333", some "2px"⟩
    ∧ derivedBtnSecondary (some dsOverride) Mode.light
        = ⟨some "#444", some "#555", some "#666", some "3px"⟩
    ∧ (derivedBadges (some dsOverride) Mode.light).success = ⟨some "#777", some "#888"⟩
    ∧ (derivedBadges (some dsOverride) Mode.light).error = ⟨some "#999", some "#aaa"⟩
    ∧ (derivedBadges (some dsOverride) Mode.light).warning = ⟨some "#bbb", some "#ccc"⟩
    ∧ (derivedBadges (some dsOverride) Mode.light).info = ⟨some "#ddd", some "#eee"⟩
    ∧ (derivedBadges (some emptyRawDS) Mode.light).success
        = ⟨some "#10B98133", some "#10B981"⟩
    ∧ derivedBtnPrimary none Mode.light
        = ⟨some "#000", some "#FFFFFF", some "#000", some "8px"⟩ :=
  ⟨(component_spec_resolution (some dsOverride) Mode.light).1 _ (by rfl),
   (component_spec_resolution (some dsOverride) Mode.light).2.2.1 _ (by rfl),
   (component_spec_resolution (some dsOverride) Mode.light).2.2.2.1 _ (by rfl),
   (component_spec_resolution (some dsOverride) Mode.light).2.2.2.2.1 _ (by rfl),
   (component_spec_resolution (some dsOverride) Mode.light).2.2.2.2.2.1 _ (by rfl),
   (component_spec_resolution (some dsOverride) Mode.light).2.2.2.2.2.2.1 _ (by rfl),
   (component_spec_resolution (some emptyRawDS) Mode.light).2.2.2.2.2.2.2.1 (by rfl),
   (component_spec_resolution none Mode.light).2.1 (by rfl)⟩

/-- C7 counterexample: the developer-export block lists 15 variable
names, not 16. -/
theorem cssExport_not_sixteen :
    ((cssVars (resolve none) Mode.light).map Prod.fst).length ≠ 16 := by
  decide

/-- C7 (amended): for every resolved theme and either mode, the
developer-export block lists exactly 15 fixed variable names, each
bound to the corresponding currently resolved value. -/
theorem cssExport_fifteen_vars (ds : Option RawDesignSystem) (m : Mode) :
    (cssVars (resolve ds) m).map Prod.fst =
      ["--primary", "--primary-hover", "--secondary", "--success", "--error",
       "--warning", "--info", "--background", "--text", "--btn-radius",
       "--card-radius", "--card-shadow", "--input-radius", "--ease-default",
       "--duration-normal"]
    ∧ (cssVars (resolve ds) m).length = 15
    ∧ (cssVars (resolve ds) m).head? =
        some ("--primary", jsShow (activeColors (resolve ds) m).primary)
    ∧ (cssVars (resolve ds) m)[10]? =
        some ("--card-radius", jsShow (derivedCard ds m).radius)
    ∧ (cssVars (resolve ds) m)[14]? =
        some ("--duration-normal", (resolve ds).animation.duration.normal) :=
  ⟨rfl, rfl, rfl, rfl, rfl⟩

/-- A raw document supplying spacing.base as zero. -/
def dsBaseZero : RawDesignSystem :=
  { emptyRawDS with spacing := some ⟨some 0, none⟩ }

/-- A raw document supplying spacing.base as seven. -/
def dsBaseSeven : RawDesignSystem :=
  { emptyRawDS with spacing := some ⟨some 7, none⟩ }

/-- C8 counterexample: a raw document supplying spacing.base = 0 does
not resolve to the supplied value — the falsy zero falls back to 4. -/
theorem spacing_base_zero_not_kept :
    dsBaseZero.spacing.bind RawSpacing.base = some 0
    ∧ (resolve (some dsBaseZero)).spacing.base = 4
    ∧ (resolve (some dsBaseZero)).spacing.base ≠ 0 := by
  refine ⟨rfl, rfl, ?_⟩
  decide

/-- C8 (amended): the resolved spacing.base equals 4 when raw supplies
no spacing.base or supplies the falsy value 0, and equals the supplied
value whenever that value is nonzero. -/
theorem spacing_base_resolution (ds : RawDesignSystem) :
    (ds.spacing.bind RawSpacing.base = none → (resolve (some ds)).spacing.base = 4)
    ∧ (ds.spacing.bind RawSpacing.base = some 0 → (resolve (some ds)).spacing.base = 4)
    ∧ (∀ n : Int, n ≠ 0 → ds.spacing.bind RawSpacing.base = some n →
        (resolve (some ds)).spacing.base = n)
    ∧ (resolve none).spacing.base = 4 := by
  have hbase : (resolve (some ds)).spacing.base = jsNum (ds.spacing.bind RawSpacing.base) 4 := rfl
  refine ⟨?_, ?_, ?_, rfl⟩
  · intro h
    rw [hbase, h]
    rfl
  · intro h
    rw [hbase, h]
    simp [jsNum]
  · intro n hn h
    rw [hbase, h]
    simp [jsNum, hn]

/-- C8 witness: the amended base resolution evaluated on absent, zero
and nonzero inputs. -/
theorem spacing_base_resolution_witness :
    (resolve (some emptyRawDS)).spacing.base = 4
    ∧ (resolve (some dsBaseZero)).spacing.base = 4
    ∧ (resolve (some dsBaseSeven)).spacing.base = 7 :=
  ⟨(spacing_base_resolution emptyRawDS).1 rfl,
   (spacing_base_resolution dsBaseZero).2.1 rfl,
   (spacing_base_resolution dsBaseSeven).2.2.1 7 (by decide) rfl⟩

/-- C9: every generation failure surfaces the single generic message,
leaves the displayed manifest unchanged from before the request and
clears the loading flag; the service model sends a missing credential,
a failed call, an empty response and a malformed parse all down that
same failure path. -/
theorem generation_failure_handling (s : AppState) (e : String) :
    (finishGenerate (startGenerate s) (Except.error e)).error = some genericErrorMsg
    ∧ (finishGenerate (startGenerate s) (Except.error e)).manifest = s.manifest
    ∧ (finishGenerate (startGenerate s) (Except.error e)).loading = false
    ∧ (∀ e2 : String, finishGenerate (startGenerate s) (Except.error e)
        = finishGenerate (startGenerate s) (Except.error e2))
    ∧ (∀ (c : Except String (Option String)) (p : String → Except String RawManifest),
        generateProjectManifest none c p = Except.error "API Key is missing")
    ∧ (∀ (k e2 : String) (p : String → Except String RawManifest),
        generateProjectManifest (some k) (Except.error e2) p = Except.error e2)
    ∧ (∀ (k : String) (p : String → Except String RawManifest),
        generateProjectManifest (some k) (Except.ok none) p
          = Except.error "No response from AI")
    ∧ (∀ (k t : String) (p : String → Except String RawManifest),
        generateProjectManifest (some k) (Except.ok (some t)) p = p t) :=
  ⟨rfl, rfl, rfl, fun _ => rfl, fun _ _ => rfl, fun _ _ _ => rfl,
   fun _ _ => rfl, fun _ _ _ => rfl⟩

/-- C10: a manifest without a designSystem section gets the blueprint
default whose colors object is present but empty; whole-object
substitution keeps that empty object instead of the curated default
palette, mode selection lands on the emergency palette (background
white, text black, every other token absent), and component synthesis
falls back to its hardcoded literals. -/
theorem blueprint_empty_colors_emergency (m : Mode) (nm : Option String) :
    (resolve (some { defaultDesignSystemSection with projectName := nm })).colors = ⟨none, none⟩
    ∧ (⟨none, none⟩ : ColorsObj) ≠ defaultColors
    ∧ activeColors (resolve (some { defaultDesignSystemSection with projectName := nm })) m
        = emergencyPalette
    ∧ emergencyPalette.background = some "#fff"
    ∧ emergencyPalette.text = some "#000"
    ∧ emergencyPalette.primary = none
    ∧ emergencyPalette.success = none
    ∧ (∀ mra : RawManifest, dsForStyleguide { mra with designSystem := none }
        = { defaultDesignSystemSection with
            projectName := (normalize { mra with designSystem := none }).project.name })
    ∧ derivedBtnPrimary (some { defaultDesignSystemSection with projectName := nm }) m
        = ⟨some "#000000", some "#FFFFFF", some "#333333", some "8px"⟩
    ∧ (derivedBadges (some { defaultDesignSystemSection with projectName := nm }) m).success
        = ⟨some "#10B98133", some "#10B981"⟩ := by
  cases m <;>
    exact ⟨rfl, by decide, rfl, rfl, rfl, rfl, rfl, fun _ => rfl, rfl, rfl⟩

end StylePropre
